import Mathlib

/-!
Verification of the jonads library (a TypeScript sum-type library) against its
specification.  The definitions below are a shallow embedding of the source
files under src/: each class method of Left, Right, Ok, Err, Some and None is
translated to a Lean function on an inductive datatype, raised JavaScript
faults are modelled with Except, and settled promises are modelled as
Except values (resolved or rejected).
-/

/-- The two sides of an Either jonad, as passed to GetValueError. -/
inductive Side where
  | left
  | right
deriving DecidableEq, Repr

/-- Rendering of a side, used in the GetValueError message. -/
def Side.str : Side → String
  | .left => "left"
  | .right => "right"

/-- The fault objects that appear in this library and its tests:
plain Error instances, TypeError (raised by JavaScript when a missing method
is called), JonadsError (src/src/errors.ts), its subclass GetValueError,
caller-defined subclasses of Error identified by class name, and the
module-private DoPropagateError of src/src/do.ts carrying a failure. -/
inductive ErrorJ where
  | plain (message : String)
  | typeError (message : String)
  | jonads (message : String)
  | getValue (side : Side)
  | custom (name : String) (message : String)
  | doPropagate (carried : ErrorJ)
deriving DecidableEq, Repr

/-- The message carried by a fault.  GetValueError builds
"Attempted to unwrap a missing <side> value" (src/src/errors.ts), and
DoPropagateError passes a fixed message to its superclass (src/src/do.ts). -/
def ErrorJ.message : ErrorJ → String
  | .plain m => m
  | .typeError m => m
  | .jonads m => m
  | .getValue s => "Attempted to unwrap a missing " ++ s.str ++ " value"
  | .custom _ m => m
  | .doPropagate _ => "propagating failure from result in do block"

/-- A value raised by a JavaScript throw statement or a rejected promise:
a fault object, or a non-fault value such as null, undefined or a string. -/
inductive Thrown where
  | err (e : ErrorJ)
  | vnull
  | vundefined
  | vstr (s : String)
deriving DecidableEq, Repr

/-- Whether a raised value is nullish (null or undefined). -/
def Thrown.isNullish : Thrown → Bool
  | .vnull => true
  | .vundefined => true
  | _ => false

/-- The error classes of the library that can appear in an instanceof test or
in the allow-list given to tryCatching: Error itself, JonadsError,
GetValueError, DoPropagateError, TypeError, and caller-defined direct
subclasses of Error identified by name. -/
inductive ErrClass where
  | error
  | jonadsError
  | getValueError
  | doPropagateError
  | typeError
  | custom (name : String)
deriving DecidableEq, Repr

/-- JavaScript instanceof on the fault taxonomy: every fault is an Error;
JonadsError extends Error; GetValueError and DoPropagateError extend
JonadsError; caller-defined classes extend Error directly and are
distinguished by name. -/
def ErrorJ.instanceOf : ErrorJ → ErrClass → Bool
  | _, .error => true
  | .typeError _, .typeError => true
  | .jonads _, .jonadsError => true
  | .getValue _, .jonadsError => true
  | .getValue _, .getValueError => true
  | .doPropagate _, .jonadsError => true
  | .doPropagate _, .doPropagateError => true
  | .custom n _, .custom m => n == m
  | _, _ => false

/-- instanceof on an arbitrary raised value: primitive values (null,
undefined, strings) are not instances of any class. -/
def Thrown.instanceOf : Thrown → ErrClass → Bool
  | .err e, c => e.instanceOf c
  | _, _ => false

/-- A fallback argument that may be a plain value or a callback of the other
side, as in leftOr, rightOr and valueOr. -/
inductive Fallback (A B : Type) where
  | val (v : B)
  | fn (f : A → B)

/-- The Either jonad: a Left instance holding an L or a Right instance
holding an R (src/src/either/left.ts, src/src/either/right.ts). -/
inductive EitherJ (L R : Type) where
  | left (value : L)
  | right (value : R)
deriving DecidableEq, Repr

/-- Left.isLeft returns true; Right.isLeft returns false. -/
def EitherJ.isLeft : EitherJ L R → Bool
  | .left _ => true
  | .right _ => false

/-- Left.isRight returns false; Right.isRight returns true. -/
def EitherJ.isRight : EitherJ L R → Bool
  | .left _ => false
  | .right _ => true

/-- Left.leftOr returns the stored value; Right.leftOr evaluates the
fallback, applying it to the right value when it is a function. -/
def EitherJ.leftOr : EitherJ L R → Fallback R L → L
  | .left v, _ => v
  | .right r, .fn f => f r
  | .right _, .val v => v

/-- Left.rightOr evaluates the fallback on the left value when it is a
function; Right.rightOr returns the stored value. -/
def EitherJ.rightOr : EitherJ L R → Fallback L R → R
  | .left l, .fn f => f l
  | .left _, .val v => v
  | .right v, _ => v

/-- Left.mapLeft wraps the mapped value in a new Left; Right.mapLeft
returns a new Right with the same value. -/
def EitherJ.mapLeft (f : L → T) : EitherJ L R → EitherJ T R
  | .left v => .left (f v)
  | .right r => .right r

/-- Left.mapRight returns a new Left with the same value; Right.mapRight
wraps the mapped value in a new Right. -/
def EitherJ.mapRight (f : R → T) : EitherJ L R → EitherJ L T
  | .left l => .left l
  | .right v => .right (f v)

/-- match invokes exactly the function for the stored side. -/
def EitherJ.matchE (onLeft : L → T) (onRight : R → T) : EitherJ L R → T
  | .left v => onLeft v
  | .right v => onRight v

/-- Left.getLeftOrThrow returns the value; Right.getLeftOrThrow throws a
GetValueError naming the left side. -/
def EitherJ.getLeftOrThrow : EitherJ L R → Except Thrown L
  | .left v => .ok v
  | .right _ => .error (.err (.getValue .left))

/-- Left.getRightOrThrow throws a GetValueError naming the right side;
Right.getRightOrThrow returns the value. -/
def EitherJ.getRightOrThrow : EitherJ L R → Except Thrown R
  | .left _ => .error (.err (.getValue .right))
  | .right v => .ok v

/-- The Result jonad: Ok holds a value, Err holds a fault
(src/src/result/ok.ts, src/src/result/err.ts). -/
inductive ResultJ (V E : Type) where
  | ok (value : V)
  | err (error : E)
deriving DecidableEq, Repr

/-- Ok extends Left and Err extends Right: the Either view of a Result. -/
def ResultJ.toEither : ResultJ V E → EitherJ V E
  | .ok v => .left v
  | .err e => .right e

/-- isOk delegates to the inherited isLeft. -/
def ResultJ.isOk (r : ResultJ V E) : Bool := r.toEither.isLeft

/-- isErr delegates to the inherited isRight. -/
def ResultJ.isErr (r : ResultJ V E) : Bool := r.toEither.isRight

/-- Ok.map wraps the mapped value in a new Ok; Err.map returns a new Err
with the same fault. -/
def ResultJ.map (f : V → T) : ResultJ V E → ResultJ T E
  | .ok v => .ok (f v)
  | .err e => .err e

/-- Ok.mapErr returns a new Ok with the same value; Err.mapErr wraps the
mapped fault in a new Err. -/
def ResultJ.mapErr (f : E → F) : ResultJ V E → ResultJ V F
  | .ok v => .ok v
  | .err e => .err (f e)

/-- Ok.andThen returns mapper applied to the value; Err.andThen returns a
new Err with the same fault, without mentioning the mapper. -/
def ResultJ.andThen : ResultJ V E → (V → ResultJ T E) → ResultJ T E
  | .ok v, mapper => mapper v
  | .err e, _ => .err e

/-- andThen instrumented with the list of arguments the mapper is invoked
on: Ok.andThen calls it exactly once on the stored value, Err.andThen
never calls it. -/
def ResultJ.andThenCalls : ResultJ V E → (V → ResultJ T E) → ResultJ T E × List V
  | .ok v, mapper => (mapper v, [v])
  | .err e, _ => (.err e, [])

/-- Ok.andThenAsync awaits mapper applied to the value; Err.andThenAsync
resolves to a new Err with the same fault.  A promised Result is modelled
as an Except that is rejected or resolved. -/
def ResultJ.andThenAsync : ResultJ V E → (V → Except Thrown (ResultJ T E)) →
    Except Thrown (ResultJ T E)
  | .ok v, mapper => mapper v
  | .err e, _ => .ok (.err e)

/-- andThenAsync instrumented with the list of arguments the mapper is
invoked on. -/
def ResultJ.andThenAsyncCalls : ResultJ V E → (V → Except Thrown (ResultJ T E)) →
    Except Thrown (ResultJ T E) × List V
  | .ok v, mapper => (mapper v, [v])
  | .err e, _ => (.ok (.err e), [])

/-- getLeftOrThrow inherited from Left and Right. -/
def ResultJ.getLeftOrThrow (r : ResultJ V E) : Except Thrown V :=
  r.toEither.getLeftOrThrow

/-- getRightOrThrow inherited from Left and Right. -/
def ResultJ.getRightOrThrow (r : ResultJ V E) : Except Thrown E :=
  r.toEither.getRightOrThrow

/-- Whether a Result is a failure whose payload is a nullish raised value. -/
def ResultJ.errNullish : ResultJ V Thrown → Bool
  | .err t => t.isNullish
  | .ok _ => false

/-- Claim C2: for every fault e and every function f from values to
Results, failure(e).andThen(f) never invokes f (the instrumented call log
is empty) and the returned Result equals failure(e) by tag and payload;
likewise andThenAsync resolves to failure(e) without invoking its mapper. -/
theorem err_andThen_short_circuit (V E T : Type) (e : E)
    (f : V → ResultJ T E) (g : V → Except Thrown (ResultJ T E)) :
    (ResultJ.err e : ResultJ V E).andThen f = ResultJ.err e
    ∧ ((ResultJ.err e : ResultJ V E).andThenCalls f).2 = []
    ∧ (ResultJ.err e : ResultJ V E).andThenAsync g = Except.ok (ResultJ.err e)
    ∧ ((ResultJ.err e : ResultJ V E).andThenAsyncCalls g).2 = [] := by
  refine ⟨rfl, rfl, rfl, rfl⟩

/-- trying (src/unnamed/part_013): execute the block, wrapping a normal
return in Ok and any raised value in Err.  A synchronous block that may
throw is modelled by its outcome, an Except value. -/
def trying : Except Thrown T → ResultJ T Thrown
  | .ok v => ResultJ.ok v
  | .error e => ResultJ.err e

/-- tryingAsync: identical classification after awaiting the block. -/
def tryingAsync : Except Thrown T → ResultJ T Thrown
  | .ok v => ResultJ.ok v
  | .error e => ResultJ.err e

/-- handleTryError: wrap the raised value as Err when it is an instance of
one of the allowed classes, otherwise rethrow it. -/
def handleTryError (t : Thrown) (errors : List ErrClass) :
    Except Thrown (ResultJ T Thrown) :=
  if errors.any (fun c => t.instanceOf c) then Except.ok (ResultJ.err t)
  else Except.error t

/-- tryCatching: with an empty allow-list, behave as trying; otherwise wrap
a normal return in Ok and pass a raised value to handleTryError.  The
codomain is Except because the call itself may rethrow. -/
def tryCatching (errors : List ErrClass) (block : Except Thrown T) :
    Except Thrown (ResultJ T Thrown) :=
  if errors.length = 0 then Except.ok (trying block)
  else
    match block with
    | .ok v => Except.ok (ResultJ.ok v)
    | .error t => handleTryError t errors

/-- tryCatchingAsync: same classification as tryCatching after awaiting
the block, delegating to tryingAsync on an empty allow-list. -/
def tryCatchingAsync (errors : List ErrClass) (block : Except Thrown T) :
    Except Thrown (ResultJ T Thrown) :=
  if errors.length = 0 then Except.ok (tryingAsync block)
  else
    match block with
    | .ok v => Except.ok (ResultJ.ok v)
    | .error t => handleTryError t errors

/-- OneError, TwoError, ThreeError of spec Scenario D: distinct direct
subclasses of Error. -/
def oneErrorCls : ErrClass := .custom "OneError"

/-- TwoError class of Scenario D. -/
def twoErrorCls : ErrClass := .custom "TwoError"

/-- ThreeError class of Scenario D. -/
def threeErrorCls : ErrClass := .custom "ThreeError"

/-- A raised TwoError instance. -/
def twoErrorInst : Thrown := .err (.custom "TwoError" "")

/-- A raised ThreeError instance. -/
def threeErrorInst : Thrown := .err (.custom "ThreeError" "")

/-- Helper: the value of tryCatching on a block that raised t. -/
theorem tryCatching_error_eq (ks : List ErrClass) (t : Thrown) :
    tryCatching (T := T) ks (Except.error t)
      = (if ks.isEmpty || ks.any (fun c => t.instanceOf c)
         then Except.ok (ResultJ.err t) else Except.error t) := by
  cases ks with
  | nil => simp [tryCatching, trying]
  | cons a l => simp [tryCatching, handleTryError]

/-- Helper: tryCatchingAsync computes the same function as tryCatching. -/
theorem tryCatchingAsync_eq (ks : List ErrClass) (b : Except Thrown T) :
    tryCatchingAsync ks b = tryCatching ks b := by
  cases ks with
  | nil => cases b <;> simp [tryCatching, tryCatchingAsync, trying, tryingAsync]
  | cons a l => cases b <;> simp [tryCatching, tryCatchingAsync]

/-- Claim C5: a raised value is converted to a failure exactly when the
allow-list is empty or some listed class matches by instanceof, and is
rethrown otherwise; an empty allow-list behaves exactly like trying; a
normal return is wrapped in Ok; tryCatchingAsync agrees with tryCatching;
and Scenario D holds concretely. -/
theorem tryCatching_spec (T : Type) (ks : List ErrClass) (t : Thrown)
    (v : T) (b : Except Thrown T) :
    tryCatching ks (Except.error t : Except Thrown T)
      = (if ks.isEmpty || ks.any (fun c => t.instanceOf c)
         then Except.ok (ResultJ.err t) else Except.error t)
    ∧ tryCatching ks (Except.ok v) = Except.ok (ResultJ.ok v)
    ∧ tryCatching ([] : List ErrClass) b = Except.ok (trying b)
    ∧ tryCatchingAsync ks (Except.error t : Except Thrown T)
      = tryCatching ks (Except.error t)
    ∧ tryCatchingAsync ks (Except.ok v) = tryCatching ks (Except.ok v)
    ∧ tryCatching [oneErrorCls, twoErrorCls]
        (Except.error twoErrorInst : Except Thrown Unit)
      = Except.ok (ResultJ.err twoErrorInst)
    ∧ tryCatching [oneErrorCls]
        (Except.error threeErrorInst : Except Thrown Unit)
      = Except.error threeErrorInst := by
  refine ⟨tryCatching_error_eq ks t, ?_, ?_, tryCatchingAsync_eq ks _,
    tryCatchingAsync_eq ks _, rfl, rfl⟩
  · cases ks with
    | nil => simp [tryCatching, trying]
    | cons a l => simp [tryCatching]
  · simp [tryCatching]

/-- Counterexample to claim C8: trying applied to a block that raises the
value null returns a failure-tagged Result whose payload is null, so a
failure payload can be nullish. -/
theorem trying_nullish_payload_cex :
    trying (Except.error Thrown.vnull : Except Thrown Unit)
      = ResultJ.err Thrown.vnull
    ∧ (trying (Except.error Thrown.vnull : Except Thrown Unit)).isErr = true
    ∧ Thrown.isNullish Thrown.vnull = true := by
  refine ⟨rfl, rfl, rfl⟩

/-- Claim C8 as amended: every failure produced by trying, tryingAsync,
tryCatching or tryCatchingAsync wraps exactly the value the block raised,
so its payload is non-nullish whenever the raised value is non-nullish;
a raised nullish value, however, is passed through as the payload. -/
theorem failure_payload_amended (T : Type) (t : Thrown)
    (h : t.isNullish = false) :
    trying (Except.error t : Except Thrown T) = ResultJ.err t
    ∧ (trying (Except.error t : Except Thrown T)).errNullish = false
    ∧ tryingAsync (Except.error t : Except Thrown T) = ResultJ.err t
    ∧ ∀ ks, tryCatching ks (Except.error t : Except Thrown T)
              = Except.ok (ResultJ.err t)
            ∨ tryCatching ks (Except.error t : Except Thrown T)
              = Except.error t := by
  refine ⟨rfl, ?_, rfl, ?_⟩
  · simp [trying, ResultJ.errNullish, h]
  · intro ks
    rw [tryCatching_error_eq]
    split
    · exact Or.inl rfl
    · exact Or.inr rfl

/-- Witness for failure_payload_amended at the raised fault
new Error about a boom, which is not nullish. -/
theorem failure_payload_amended_witness :
    Thrown.isNullish (Thrown.err (ErrorJ.plain "boom")) = false
    ∧ (trying (Except.error (Thrown.err (ErrorJ.plain "boom")) :
          Except Thrown Unit)
        = ResultJ.err (Thrown.err (ErrorJ.plain "boom"))
      ∧ (trying (Except.error (Thrown.err (ErrorJ.plain "boom")) :
            Except Thrown Unit)).errNullish = false
      ∧ tryingAsync (Except.error (Thrown.err (ErrorJ.plain "boom")) :
            Except Thrown Unit)
        = ResultJ.err (Thrown.err (ErrorJ.plain "boom"))
      ∧ ∀ ks, tryCatching ks (Except.error (Thrown.err (ErrorJ.plain "boom")) :
                Except Thrown Unit)
                = Except.ok (ResultJ.err (Thrown.err (ErrorJ.plain "boom")))
              ∨ tryCatching ks (Except.error (Thrown.err (ErrorJ.plain "boom")) :
                Except Thrown Unit)
                = Except.error (Thrown.err (ErrorJ.plain "boom"))) :=
  ⟨rfl, failure_payload_amended Unit (Thrown.err (ErrorJ.plain "boom")) rfl⟩

/-- The nullish values of JavaScript, as stored by the None constructor
(src/src/option/none.ts takes null or undefined). -/
inductive Nullish where
  | null
  | undefined
deriving DecidableEq, Repr

/-- The Option jonad: Some holds a present value (src/src/option/some.ts),
None records which nullish value produced it (src/src/option/none.ts). -/
inductive OptionJ (T : Type) where
  | some (value : T)
  | none (marker : Nullish)
deriving DecidableEq, Repr

/-- Some extends Left and None extends Right: the Either view of an
Option, whose right side holds the stored nullish. -/
def OptionJ.toEither : OptionJ T → EitherJ T Nullish
  | .some v => .left v
  | .none m => .right m

/-- Some.isSome returns true; None.isSome returns false. -/
def OptionJ.isSome : OptionJ T → Bool
  | .some _ => true
  | .none _ => false

/-- Some.isNone returns false; None.isNone returns true. -/
def OptionJ.isNone : OptionJ T → Bool
  | .some _ => false
  | .none _ => true

/-- Some.map wraps the mapped value in a new Some; None.map returns a new
None with the same stored nullish. -/
def OptionJ.map (f : T → U) : OptionJ T → OptionJ U
  | .some v => .some (f v)
  | .none m => .none m

/-- Some.andThen applies the mapper; None.andThen returns a new None with
the same stored nullish. -/
def OptionJ.andThen (f : T → OptionJ U) : OptionJ T → OptionJ U
  | .some v => f v
  | .none m => .none m

/-- A message argument of okOrError: a string or a producer of one. -/
inductive MessageArg where
  | str (s : String)
  | producer (f : Unit → String)

/-- Evaluation of a message argument, invoking the producer when the
isFunction guard holds. -/
def MessageArg.eval : MessageArg → String
  | .str s => s
  | .producer f => f ()

/-- None.okOrError builds a new Error from the message (evaluating a
producer first) and wraps it in Err. -/
def None_okOrError (m : MessageArg) : ResultJ T ErrorJ :=
  match m with
  | .producer f => ResultJ.err (ErrorJ.plain (f ()))
  | .str s => ResultJ.err (ErrorJ.plain s)

/-- None.okOrErrorAsync awaits the message and delegates to the static
Result.error, which wraps new Error of the message in an Err. -/
def None_okOrErrorAsync (m : MessageArg) : ResultJ T ErrorJ :=
  match m with
  | .producer f => ResultJ.err (ErrorJ.plain (f ()))
  | .str s => ResultJ.err (ErrorJ.plain s)

/-- Dynamic dispatch of okOrError on an Option instance.  The Option
interface (src/src/option/option.ts) declares the method, but the Some
class defines neither okOrError nor okOrErrorAsync and inherits neither
from Left, so on a present instance the property is undefined and the
call raises a TypeError; None.okOrError is defined and runs. -/
def OptionJ.okOrError : OptionJ T → MessageArg → Except Thrown (ResultJ T ErrorJ)
  | .some _, _ => .error (.err (.typeError "p.okOrError is not a function"))
  | .none _, m => .ok (None_okOrError m)

/-- Dynamic dispatch of okOrErrorAsync, missing on Some in the same way;
on None it runs None.okOrErrorAsync. -/
def OptionJ.okOrErrorAsync : OptionJ T → MessageArg → Except Thrown (ResultJ T ErrorJ)
  | .some _, _ => .error (.err (.typeError "p.okOrErrorAsync is not a function"))
  | .none _, m => .ok (None_okOrErrorAsync m)

/-- A raw constructor argument of Option.from: either a value of T or one
of the two nullish values, modelling the union of T with null and
undefined. -/
inductive RawArg (T : Type) where
  | val (v : T)
  | nullish (m : Nullish)
deriving DecidableEq, Repr

/-- Option.from on the union domain: a nullish argument is stored in a
new None, anything else is wrapped in a new Some. -/
def Option_fromRaw : RawArg T → OptionJ T
  | .nullish m => .none m
  | .val v => .some v

/-- Option.none always returns a None built from null. -/
def Option_none : OptionJ T := .none .null

/-- A dynamically typed JavaScript value, rich enough to distinguish the
nullish values from falsy-but-defined values such as 0 and the empty
string. -/
inductive JSVal where
  | null
  | undefined
  | num (n : Int)
  | str (s : String)
  | bool (b : Bool)
  | obj (id : Nat)
deriving DecidableEq, Repr

/-- Modelled from the spec: isNullish is imported by
src/src/option/option.ts from ../guards, but no definition of it appears
in the repository snapshot (src/src/guards.ts defines only isFunction,
isAsyncFunction and isPromise).  Following the spec, which says
construction-from-raw collapses null and undefined inputs into the absent
variant, it holds exactly of null and undefined. -/
def isNullish : JSVal → Bool
  | .null => true
  | .undefined => true
  | _ => false

/-- The view of a nullish JSVal as a Nullish marker; the default branch is
unreachable under the isNullish guard. -/
def JSVal.asNullish : JSVal → Nullish
  | .undefined => .undefined
  | _ => .null

/-- Option.from on dynamic values (src/src/option/option.ts): if the value
is nullish it is stored in a new None, otherwise wrapped in a new Some. -/
def Option_from (v : JSVal) : OptionJ JSVal :=
  if isNullish v then .none v.asNullish else .some v

/-- Option.transpose (src/src/option/option.ts): match on the Option; a
held Result is mapped so its value is rewrapped in a new Some; an absent
Option becomes Ok of Option.none. -/
def Option_transpose : OptionJ (ResultJ T E) → ResultJ (OptionJ T) E
  | .some r => r.map (fun v => .some v)
  | .none _ => ResultJ.ok Option_none

/-- Result.transpose (src/src/result/result.ts): match on the Result; a
held Option is mapped so its value is rewrapped in Result.ok; an Err is
passed to Option.from, and an Err instance is not nullish, so it becomes
a Some holding the failure. -/
def Result_transpose : ResultJ (OptionJ T) E → OptionJ (ResultJ T E)
  | .ok o => o.map (fun v => ResultJ.ok v)
  | .err e => Option_fromRaw (.val (ResultJ.err e))

/-- Equality of Options by tag and payload: present values must hold equal
payloads; absent instances are equal regardless of which nullish produced
them, since per the data model the absent marker carries no information. -/
def OptionJ.obsEq : OptionJ T → OptionJ T → Prop
  | .some a, .some b => a = b
  | .none _, .none _ => True
  | _, _ => False

/-- Claim C6: transposing an Option of a Result into a Result of an Option
and transposing back reconstructs an Option equal to the original by tags
and payloads, for all three shapes; for present inputs and for the
canonical absent instance the reconstruction is literally equal. -/
theorem transpose_round_trip (T E : Type) (x : T) (e : E)
    (opt : OptionJ (ResultJ T E)) :
    (Result_transpose (Option_transpose opt)).obsEq opt
    ∧ Result_transpose (Option_transpose
        (.some (.ok x) : OptionJ (ResultJ T E))) = .some (.ok x)
    ∧ Result_transpose (Option_transpose
        (.some (.err e) : OptionJ (ResultJ T E))) = .some (.err e)
    ∧ Result_transpose (Option_transpose
        (.none .null : OptionJ (ResultJ T E))) = .none .null := by
  refine ⟨?_, rfl, rfl, rfl⟩
  cases opt with
  | some r => cases r <;> simp [Option_transpose, Result_transpose,
      ResultJ.map, OptionJ.map, Option_fromRaw, OptionJ.obsEq]
  | none m => simp [Option_transpose, Result_transpose, Option_none,
      OptionJ.map, OptionJ.obsEq]

/-- Claim C7: Option.from classifies null and undefined as absent with
isNone true, and every other dynamic value, including the falsy values 0
and the empty string, as a present Some wrapping that value. -/
theorem option_from_spec (v : JSVal) (h : isNullish v = false) :
    (Option_from JSVal.null).isNone = true
    ∧ (Option_from JSVal.undefined).isNone = true
    ∧ Option_from v = .some v
    ∧ Option_from (JSVal.num 0) = .some (JSVal.num 0)
    ∧ Option_from (JSVal.str "") = .some (JSVal.str "") := by
  refine ⟨rfl, rfl, ?_, rfl, rfl⟩
  simp [Option_from, h]

/-- Witness for option_from_spec at the falsy-but-defined value 0. -/
theorem option_from_spec_witness :
    isNullish (JSVal.num 0) = false
    ∧ ((Option_from JSVal.null).isNone = true
      ∧ (Option_from JSVal.undefined).isNone = true
      ∧ Option_from (JSVal.num 0) = .some (JSVal.num 0)
      ∧ Option_from (JSVal.num 0) = .some (JSVal.num 0)
      ∧ Option_from (JSVal.str "") = .some (JSVal.str "")) :=
  ⟨rfl, option_from_spec (JSVal.num 0) rfl⟩

/-- Claim C1 fails on the code: Option.from of 123 is a present Some, but
the Some class implements neither okOrError nor okOrErrorAsync, although
the Option interface it declares requires both and documents that a
present instance yields Ok of its value; the call on a present instance
therefore raises a TypeError instead of returning a success.  On an
absent instance okOrError returns Err of a new Error built from the
message, as claimed. -/
theorem some_okOrError_missing :
    Option_from (JSVal.num 123) = OptionJ.some (JSVal.num 123)
    ∧ OptionJ.okOrError (OptionJ.some (JSVal.num 123)) (MessageArg.str "oops")
        = Except.error (Thrown.err (ErrorJ.typeError "p.okOrError is not a function"))
    ∧ OptionJ.okOrErrorAsync (OptionJ.some (JSVal.num 123)) (MessageArg.str "oops")
        = Except.error (Thrown.err (ErrorJ.typeError "p.okOrErrorAsync is not a function"))
    ∧ OptionJ.okOrError (Option_none : OptionJ JSVal) (MessageArg.str "oops")
        = Except.ok (ResultJ.err (ErrorJ.plain "oops"))
    ∧ OptionJ.okOrErrorAsync (Option_none : OptionJ JSVal) (MessageArg.str "oops")
        = Except.ok (ResultJ.err (ErrorJ.plain "oops")) := by
  refine ⟨rfl, rfl, rfl, rfl, rfl⟩

/-- An argument given to the bind function of doing: a plain value or a
Result, modelling the union accepted by bindResult (src/src/do.ts). -/
inductive BindArg (T : Type) where
  | raw (v : T)
  | res (r : ResultJ T ErrorJ)

/-- bindResult (src/src/do.ts): when the argument is a Result instance, an
Ok yields its value and an Err raises a DoPropagateError carrying the
failure; a non-Result argument is returned as is. -/
def bindResult : BindArg T → Except Thrown T
  | .res r =>
      (match r with
       | .ok v => Except.ok v
       | .err e => Except.error (Thrown.err (ErrorJ.doPropagate e)))
  | .raw v => Except.ok v

/-- The body of a doing block, as the sequence of bind calls it performs:
it ends by returning a value or by raising, and each bind call passes its
argument to bindResult and continues with the bound value. -/
inductive DoBlock (V T : Type) where
  | ret (v : T)
  | raise (t : Thrown)
  | bindStep (arg : BindArg V) (k : V → DoBlock V T)

/-- Execution of a doing block body: a bind call either binds its value
and continues, or raises and unwinds the rest of the block unevaluated. -/
def runBlock : DoBlock V T → Except Thrown T
  | .ret v => .ok v
  | .raise t => .error t
  | .bindStep arg k =>
      match bindResult arg with
      | .ok v => runBlock (k v)
      | .error t => .error t

/-- handleDoingResult (src/src/do.ts): an Ok passes through; an Err whose
fault is a DoPropagateError instance is unwrapped to the carried failure;
any other Err passes through. -/
def handleDoingResult : ResultJ T Thrown → ResultJ T Thrown
  | .ok v => ResultJ.ok v
  | .err (.err (.doPropagate c)) => ResultJ.err (.err c)
  | .err t => ResultJ.err t

/-- doing (src/src/do.ts): the allow-list is empty when catchall is true
and holds exactly DoPropagateError otherwise; the block runs under
tryCatching and the result is passed through handleDoingResult. -/
def doing (block : DoBlock V T) (catchall : Bool) :
    Except Thrown (ResultJ T Thrown) :=
  let catchingErrors : List ErrClass :=
    if catchall then [] else [ErrClass.doPropagateError]
  (tryCatching catchingErrors (runBlock block)).map handleDoingResult

/-- The content a promise given to the async bind resolves to: a plain
value or a Result. -/
inductive PromContent (T : Type) where
  | raw (v : T)
  | res (r : ResultJ T ErrorJ)

/-- An argument given to the bind function of doingAsync: a plain value, a
Result, or a pending promise of either, which may reject. -/
inductive ABindArg (T : Type) where
  | raw (v : T)
  | res (r : ResultJ T ErrorJ)
  | pending (p : Except Thrown (PromContent T))

/-- bindPromisedResult (src/src/do.ts): await Promise.resolve of the
argument (a rejected promise re-raises its reason here); a resolved
Result goes to bindResult, any other resolved value is first wrapped in
Result.ok and then bound. -/
def bindPromisedResult (a : ABindArg T) : Except Thrown T :=
  let resolved : Except Thrown (PromContent T) :=
    match a with
    | .raw v => .ok (.raw v)
    | .res r => .ok (.res r)
    | .pending p => p
  match resolved with
  | .error t => .error t
  | .ok (.res r) => bindResult (.res r)
  | .ok (.raw v) => bindResult (.res (ResultJ.ok v))

/-- The body of a doingAsync block, mirroring DoBlock with the async bind
argument type. -/
inductive ADoBlock (V T : Type) where
  | ret (v : T)
  | raise (t : Thrown)
  | bindStep (arg : ABindArg V) (k : V → ADoBlock V T)

/-- Execution of a doingAsync block body through bindPromisedResult. -/
def runABlock : ADoBlock V T → Except Thrown T
  | .ret v => .ok v
  | .raise t => .error t
  | .bindStep arg k =>
      match bindPromisedResult arg with
      | .ok v => runABlock (k v)
      | .error t => .error t

/-- doingAsync (src/src/do.ts): same allow-list construction as doing, the
awaited block running under tryCatchingAsync, the result passed through
handleDoingResult. -/
def doingAsync (block : ADoBlock V T) (catchall : Bool) :
    Except Thrown (ResultJ T Thrown) :=
  let catchingErrors : List ErrClass :=
    if catchall then [] else [ErrClass.doPropagateError]
  (tryCatchingAsync catchingErrors (runABlock block)).map handleDoingResult

/-- Helper: handleDoingResult leaves a failure alone when the raised value
is not a DoPropagateError instance. -/
theorem handleDoingResult_not_prop (t : Thrown)
    (h : t.instanceOf ErrClass.doPropagateError = false) :
    handleDoingResult (T := T) (ResultJ.err t) = ResultJ.err t := by
  cases t with
  | err e => cases e <;> simp_all [handleDoingResult, Thrown.instanceOf,
      ErrorJ.instanceOf]
  | vnull => rfl
  | vundefined => rfl
  | vstr s => rfl

/-- Claim C3: when the run of a block raises a value, doing with catchall
true returns a failure wrapping it (a raised propagation signal being
unwrapped to its carried failure), while doing with catchall false
returns the unwrapped carried failure for the propagation signal and
re-raises every other raised value to the caller. -/
theorem doing_guard (V T : Type) (block : DoBlock V T) (t : Thrown)
    (h : runBlock block = Except.error t) :
    (t.instanceOf ErrClass.doPropagateError = false →
       doing block true = Except.ok (ResultJ.err t)
       ∧ doing block false = Except.error t)
    ∧ ∀ c, t = Thrown.err (ErrorJ.doPropagate c) →
       doing block true = Except.ok (ResultJ.err (Thrown.err c))
       ∧ doing block false = Except.ok (ResultJ.err (Thrown.err c)) := by
  constructor
  · intro hni
    constructor
    · simp [doing, tryCatching, trying, h, Except.map,
        handleDoingResult_not_prop t hni]
    · simp [doing, tryCatching, handleTryError, h, List.any, hni, Except.map]
  · intro c hc
    subst hc
    constructor
    · simp [doing, tryCatching, trying, h, Except.map, handleDoingResult]
    · simp [doing, tryCatching, handleTryError, h, Thrown.instanceOf,
        ErrorJ.instanceOf, List.any, Except.map, handleDoingResult]

/-- A CustomError instance as raised in spec Scenario C. -/
def customBoom : Thrown := .err (.custom "CustomError" "")

/-- The Scenario C block: it immediately raises a CustomError. -/
def blockBoom : DoBlock Nat Nat := .raise customBoom

/-- Witness for doing_guard at the Scenario C block: catchall true yields
a failure wrapping the CustomError, catchall false re-raises it. -/
theorem doing_guard_witness :
    (Thrown.instanceOf customBoom ErrClass.doPropagateError = false →
       doing blockBoom true = Except.ok (ResultJ.err customBoom)
       ∧ doing blockBoom false = Except.error customBoom)
    ∧ ∀ c, customBoom = Thrown.err (ErrorJ.doPropagate c) →
       doing blockBoom true = Except.ok (ResultJ.err (Thrown.err c))
       ∧ doing blockBoom false = Except.ok (ResultJ.err (Thrown.err c)) :=
  doing_guard Nat Nat blockBoom customBoom rfl

/-- The FirstError fault of spec Scenario B. -/
def firstError : ErrorJ := .custom "FirstError" ""

/-- The SecondError fault of spec Scenario B. -/
def secondError : ErrorJ := .custom "SecondError" ""

/-- The Scenario B block: bind Ok 1, then bind Err FirstError, then bind
Err SecondError, returning the last bound value. -/
def scenarioB : DoBlock Nat Nat :=
  .bindStep (.res (.ok 1)) (fun _ =>
    .bindStep (.res (.err firstError)) (fun _ =>
      .bindStep (.res (.err secondError)) (fun c => .ret c)))

/-- Claim C4: bind returns the payload of a success; bind of a failure
raises the propagation signal carrying that failure, so the rest of the
block, whatever it is, is never evaluated and doing returns a failure
wrapping exactly the first failing bound fault; concretely Scenario B
yields a failure wrapping FirstError. -/
theorem bind_short_circuit (V T : Type) :
    (∀ v : V, bindResult (BindArg.res (ResultJ.ok v)) = Except.ok v)
    ∧ (∀ (e : ErrorJ) (k : V → DoBlock V T),
        runBlock (DoBlock.bindStep (BindArg.res (ResultJ.err e)) k)
          = Except.error (Thrown.err (ErrorJ.doPropagate e))
        ∧ doing (DoBlock.bindStep (BindArg.res (ResultJ.err e)) k) true
          = Except.ok (ResultJ.err (Thrown.err e)))
    ∧ doing scenarioB true = Except.ok (ResultJ.err (Thrown.err firstError)) := by
  refine ⟨fun v => rfl, fun e k => ⟨rfl, ?_⟩, rfl⟩
  simp [doing, tryCatching, trying, runBlock, bindResult, Except.map,
    handleDoingResult]

/-- Claim C10: inside doingAsync with catchall true, bind applied to a
pending value that rejects with a reason that is not the internal
propagation signal makes doingAsync resolve (not re-raise) to a failure
wrapping exactly that reason, whatever the rest of the block is. -/
theorem doingAsync_rejection (V T : Type) (r : Thrown)
    (k : V → ADoBlock V T)
    (h : r.instanceOf ErrClass.doPropagateError = false) :
    doingAsync (ADoBlock.bindStep (ABindArg.pending (Except.error r)) k) true
      = Except.ok (ResultJ.err r) := by
  simp [doingAsync, tryCatchingAsync, tryingAsync, runABlock,
    bindPromisedResult, Except.map, handleDoingResult_not_prop r h]

/-- Witness for doingAsync_rejection: a promise rejected with a
CustomError makes doingAsync resolve to a failure wrapping it. -/
theorem doingAsync_rejection_witness :
    doingAsync (ADoBlock.bindStep
        (ABindArg.pending (Except.error customBoom))
        (fun v : Nat => ADoBlock.ret v)) true
      = Except.ok (ResultJ.err customBoom) :=
  doingAsync_rejection Nat Nat customBoom (fun v => ADoBlock.ret v) rfl

/-- Claim C9: getLeftOrThrow returns the payload on a left-tagged union
and raises GetValueError naming the left side on a right-tagged one;
getRightOrThrow is symmetric; in particular a failure Result, being an
Err extending Right, yields its fault from getRightOrThrow and a
GetValueError from getLeftOrThrow; the GetValueError message names the
requested side. -/
theorem get_or_throw_spec (L R V : Type) (v : L) (r : R) (e : ErrorJ) :
    EitherJ.getLeftOrThrow (.left v : EitherJ L R) = Except.ok v
    ∧ EitherJ.getRightOrThrow (.left v : EitherJ L R)
        = Except.error (.err (.getValue .right))
    ∧ EitherJ.getRightOrThrow (.right r : EitherJ L R) = Except.ok r
    ∧ EitherJ.getLeftOrThrow (.right r : EitherJ L R)
        = Except.error (.err (.getValue .left))
    ∧ (ResultJ.err e : ResultJ V ErrorJ).isErr = true
    ∧ (ResultJ.err e : ResultJ V ErrorJ).getRightOrThrow = Except.ok e
    ∧ (ResultJ.err e : ResultJ V ErrorJ).getLeftOrThrow
        = Except.error (.err (.getValue .left))
    ∧ (ErrorJ.getValue .left).message
        = "Attempted to unwrap a missing left value"
    ∧ (ErrorJ.getValue .right).message
        = "Attempted to unwrap a missing right value" := by
  refine ⟨rfl, rfl, rfl, rfl, rfl, rfl, rfl, rfl, rfl⟩
